import Mathlib

/- Verification of the lagoinha postal-code lookup library.
   The aggregation engine is modelled from src/lib.rs (`get_address`, lines 91-133)
   and the CepLá provider adapter from src/services/cepla.rs (`request`, lines 21-104). -/

namespace Lagoinha

/-- Modelled from the spec: the `source` tag of an error, naming which provider
or the library itself raised it. The enum lives in the repository's error module,
which is not under `src/`; its variants are read off from the uses in
src/lib.rs (`LagoinhaLib`) and src/services/cepla.rs (`Cepla`), plus the two
remaining providers named by the crate documentation. -/
inductive Source where
  | viacep
  | cepla
  | correios
  | lagoinhaLib
deriving DecidableEq

/-- Modelled from the spec: the `kind` variants of an error. The enum itself is in
the missing error module; every variant and its payload is read off from the
construction sites in src/lib.rs (UnexpectedLibraryError, AllServicesRetunedErrors
with fields e1 e2 e3) and src/services/cepla.rs (MissingBodyError, ClientError,
ServerError, UnknownServerError with a u16 code, BodyParsingError with the decode
error message and the body text). -/
inductive Kind where
  | unexpectedLibraryError
  | missingBodyError
  | clientError (code : Nat)
  | serverError (code : Nat)
  | unknownServerError (code : Nat)
  | bodyParsingError (error : String) (body : String)
  | allServicesRetunedErrors (e1 : String) (e2 : String) (e3 : String)
deriving DecidableEq

/-- Structured error value: a failure kind paired with a source tag
(spec section 3, used throughout src/lib.rs and src/services/cepla.rs). -/
structure Error where
  kind : Kind
  source : Source
deriving DecidableEq

/-- True exactly on the composite all-providers-failed kind. -/
def Kind.isComposite : Kind → Bool
  | .allServicesRetunedErrors _ _ _ => true
  | _ => false

/-- Modelled from the spec: rendering of a source tag, part of the Display
implementation in the missing error module. -/
def fmtSource : Source → String
  | .viacep => "viacep"
  | .cepla => "cepla"
  | .correios => "correios"
  | .lagoinhaLib => "lagoinha library"

/-- Modelled from the spec: rendering of an error kind, part of the Display
implementation in the missing error module. -/
def fmtKind : Kind → String
  | .unexpectedLibraryError => "unexpected library error"
  | .missingBodyError => "missing body error"
  | .clientError code => "client error with code " ++ toString code
  | .serverError code => "server error with code " ++ toString code
  | .unknownServerError code => "unknown server error with code " ++ toString code
  | .bodyParsingError e b => "body parsing error " ++ e ++ " with body " ++ b
  | .allServicesRetunedErrors e1 e2 e3 =>
      "all services returned errors: " ++ e1 ++ ", " ++ e2 ++ ", " ++ e3

/-- Modelled from the spec: the string representation of an `Error`
(`format!("{}", e)` in src/lib.rs line 128-130 goes through the Display
implementation of the missing error module; the spec only requires that the
composite error embeds "the string representations of each individual
provider's failure"). -/
def fmtError (e : Error) : String :=
  fmtSource e.source ++ ": " ++ fmtKind e.kind

/-- Normalized address record. The six string fields are those of the Address
structs in src/services/cepla.rs lines 107-121 (field names) and the
services::Address the aggregator returns (same six fields, spec section 3). -/
structure Address where
  cep : String
  state : String
  city : String
  neighborhood : String
  address : String
  details : String
deriving DecidableEq

/-- One channel message: `Result<services::Address, Error>` as sent by the
provider tasks in src/lib.rs lines 37-89. -/
abbrev Msg := Except Error Address

/-- Outcome of one `rx.try_next()` call on the futures mpsc receiver
(src/lib.rs line 104): `Ok(Some(m))` carries a message, `Ok(None)` reports the
channel terminated, `Err(_)` reports that no message is currently available. -/
inductive PollResult where
  | message (m : Msg)
  | terminated
  | pending

/-- The internal error value built in src/lib.rs lines 111-114 and 117-120. -/
def unexpectedErr : Error :=
  { kind := .unexpectedLibraryError, source := .lagoinhaLib }

/-- The aggregation loop of `get_address` (src/lib.rs lines 103-123): for each
poll, a successful message returns `Ok(addr)`, a failure message is pushed onto
`error_list`, `Ok(None)` pushes an `UnexpectedLibraryError`, and `Err(_)`
returns `Err(UnexpectedLibraryError)` at once. `Sum.inl` is an early `return`
out of `get_address`, `Sum.inr` is the `error_list` at normal loop exit. -/
def tryLoop : List PollResult → List Error → Sum Msg (List Error)
  | [], errs => .inr errs
  | .message (.ok a) :: _, _ => .inl (.ok a)
  | .message (.error e) :: ps, errs => tryLoop ps (errs ++ [e])
  | .terminated :: ps, errs => tryLoop ps (errs ++ [unexpectedErr])
  | .pending :: _, _ => .inl (.error unexpectedErr)

/-- The composite-error construction of src/lib.rs lines 125-132: it indexes
`error_list[0]`, `error_list[1]` and `error_list[2]`. Rust indexing panics when
out of bounds, which the model renders as `none`; `some` is a normal return. -/
def compositeOf (errs : List Error) : Option Msg :=
  match errs[0]?, errs[1]?, errs[2]? with
  | some a, some b, some c =>
      some (.error { kind := .allServicesRetunedErrors (fmtError a) (fmtError b) (fmtError c),
                     source := .lagoinhaLib })
  | _, _, _ => none

/-- The post-race part of `get_address` (src/lib.rs lines 101-132) as a function
of the outcomes of its two `try_next` polls (the loop runs `for _ in 0..2`,
so exactly the polls `p0` and `p1` are made unless an earlier poll returns).
`none` models a panic. -/
def get_address_polls (p0 p1 : PollResult) : Option Msg :=
  match tryLoop [p0, p1] [] with
  | .inl r => some r
  | .inr errs => compositeOf errs

/-- One `try_next` against the queue of pending channel messages: the head
message if one is queued, otherwise `Err(_)` (the channel is never closed,
since the original `tx` of src/lib.rs line 92 stays alive in `get_address`,
so `Ok(None)` cannot arise from a message-list state). -/
def tryNext : List Msg → PollResult × List Msg
  | [] => (.pending, [])
  | m :: rest => (.message m, rest)

/-- The post-race part of `get_address` as a function of the sequence of
messages queued on the channel, in arrival order: the two polls of the loop
read the first two queued messages. `none` models a panic. -/
def get_address_chan (msgs : List Msg) : Option Msg :=
  let s0 := tryNext msgs
  let s1 := tryNext s0.2
  get_address_polls s0.1 s1.1

/-- The channel state the race step leaves behind (src/lib.rs lines 94-99):
the three provider futures are `select!`-polled temporaries, never spawned, so
the arm that completes first has already enqueued its outcome and the two
losing futures are dropped before they can send. The cepla future contains no
await point (curl is synchronous), so it is ready on the very first poll round
and the `default` arm never fires: the channel holds exactly the race winner's
single message. -/
def channelAfterSelect (outcomes : Fin 3 → Msg) (winner : Fin 3) : List Msg :=
  [outcomes winner]

/-- The whole of `get_address` (src/lib.rs lines 91-133) as a function of the
three providers' outcomes and of which provider wins the race step: the
aggregation loop runs on the single-message channel the race leaves behind. -/
def get_address (outcomes : Fin 3 → Msg) (winner : Fin 3) : Option Msg :=
  get_address_chan (channelAfterSelect outcomes winner)

/-- JSON values, as produced by the serde_json byte-level parser that
`serde_json::from_slice` (src/services/cepla.rs line 86) runs before the
derived field-level deserialization of `Address`. -/
inductive Json where
  | null
  | bool (b : Bool)
  | num (n : Int)
  | str (s : String)
  | arr (elems : List Json)
  | obj (fields : List (String × Json))

/-- Number of occurrences of key `k` among the fields of a JSON object. -/
def countKey (k : String) (l : List (String × Json)) : Nat :=
  (l.filter (fun kv => kv.1 = k)).length

/-- Value at the first occurrence of key `k` in a JSON object, if any. -/
def findVal (k : String) (l : List (String × Json)) : Option Json :=
  (l.find? (fun kv => kv.1 = k)).map (fun kv => kv.2)

/-- One field of the derived `Deserialize` for the cepla `Address`
(src/services/cepla.rs lines 107-121): a duplicate of a known key is an error,
a present value must be a JSON string, and an absent key takes the per-field
`default = "String::new"`, the empty string. Error message texts stand in for
serde's (the claims only ever carry them around). -/
def fieldValue (k : String) (l : List (String × Json)) : Except String String :=
  if 2 ≤ countKey k l then .error ("duplicate field " ++ k)
  else
    match findVal k l with
    | none => .ok ""
    | some (.str s) => .ok s
    | some _ => .error ("invalid type for field " ++ k)

/-- The string a present field decodes to, or the empty-string default. -/
def fieldStr (k : String) (l : List (String × Json)) : String :=
  match findVal k l with
  | some (.str s) => s
  | _ => ""

/-- Derived deserialization of the cepla `Address` struct
(src/services/cepla.rs lines 107-121): a JSON object whose renamed keys
`cep`, `uf`, `cidade`, `bairro`, `logradouro`, `aux` each yield a field,
defaulting to the empty string when absent; any non-object is a type error;
unknown keys are ignored (serde's default behavior, no deny_unknown_fields). -/
def deserializeAddress : Json → Except String Address
  | .obj l => do
      let cep ← fieldValue "cep" l
      let state ← fieldValue "uf" l
      let city ← fieldValue "cidade" l
      let neighborhood ← fieldValue "bairro" l
      let address ← fieldValue "logradouro" l
      let details ← fieldValue "aux" l
      pure ⟨cep, state, city, neighborhood, address, details⟩
  | _ => .error "invalid type: expected a JSON object"

/-- State of the UTF-8 validating decoder: how many continuation bytes are
still expected, the partially accumulated code point, the admissible range for
the next byte, and the characters decoded so far (reversed). -/
structure Utf8State where
  need : Nat
  acc : Nat
  lo : Nat
  hi : Nat
  chars : List Char

/-- One byte of strict UTF-8 validation, the semantics of Rust's
`std::str::from_utf8` (src/services/cepla.rs line 90): ASCII stands alone,
lead bytes C2-F4 open a 2-4 byte sequence with the restricted ranges for the
first continuation byte that exclude overlong forms, surrogates and code
points above 0x10FFFF, and anything else is invalid. -/
def utf8Step (st : Utf8State) (b : Nat) : Option Utf8State :=
  if st.need = 0 then
    if b ≤ 0x7F then some ⟨0, 0, 0, 0, Char.ofNat b :: st.chars⟩
    else if 0xC2 ≤ b ∧ b ≤ 0xDF then some ⟨1, b - 0xC0, 0x80, 0xBF, st.chars⟩
    else if b = 0xE0 then some ⟨2, 0, 0xA0, 0xBF, st.chars⟩
    else if 0xE1 ≤ b ∧ b ≤ 0xEC then some ⟨2, b - 0xE0, 0x80, 0xBF, st.chars⟩
    else if b = 0xED then some ⟨2, 13, 0x80, 0x9F, st.chars⟩
    else if 0xEE ≤ b ∧ b ≤ 0xEF then some ⟨2, b - 0xE0, 0x80, 0xBF, st.chars⟩
    else if b = 0xF0 then some ⟨3, 0, 0x90, 0xBF, st.chars⟩
    else if 0xF1 ≤ b ∧ b ≤ 0xF3 then some ⟨3, b - 0xF0, 0x80, 0xBF, st.chars⟩
    else if b = 0xF4 then some ⟨3, 4, 0x80, 0x8F, st.chars⟩
    else none
  else
    if st.lo ≤ b ∧ b ≤ st.hi then
      if st.need = 1 then some ⟨0, 0, 0, 0, Char.ofNat (st.acc * 64 + (b - 0x80)) :: st.chars⟩
      else some ⟨st.need - 1, st.acc * 64 + (b - 0x80), 0x80, 0xBF, st.chars⟩
    else none

/-- Strict UTF-8 decoding of a byte sequence, `some` exactly on the inputs
Rust's `std::str::from_utf8` accepts. -/
def utf8Decode (bytes : List Nat) : Option String :=
  match bytes.foldl (fun o b => o.bind (fun st => utf8Step st b)) (some ⟨0, 0, 0, 0, []⟩) with
  | some st => if st.need = 0 then some (String.mk st.chars.reverse) else none
  | none => none

/-- The placeholder substituted for the body when it is not valid UTF-8
(src/services/cepla.rs line 93; note the trailing space in the source). -/
def fallbackBody : String := "Failed to produce string body "

/-- The body text used in a BodyParsingError (src/services/cepla.rs
lines 90-94): the UTF-8 decoding of the buffer, or the fallback placeholder. -/
def bodyText (buf : List Nat) : String :=
  match utf8Decode buf with
  | some s => s
  | none => fallbackBody

/-- Environment of one cepla `request` call: the outcome of each fallible curl
step of src/services/cepla.rs (url line 24, header append line 30, http_headers
line 35, write_function line 43, perform line 51, response_code line 56), the
bytes accumulated in `buf`, and the outcome of the external serde_json
byte-level parse of those bytes (`some` code models `Ok(code)` from curl,
a u32 value). -/
structure CeplaEnv where
  urlOk : Bool
  appendOk : Bool
  headersOk : Bool
  writeFnOk : Bool
  performOk : Bool
  responseCode : Option Nat
  buf : List Nat
  parseResult : Except String Json

/-- The `serde_json::from_slice::<Address>` call of src/services/cepla.rs
line 86: the byte-level parse (external, given by the environment) followed by
the derived field-level deserialization. -/
def from_slice (env : CeplaEnv) : Except String Address :=
  match env.parseResult with
  | .error m => .error m
  | .ok j => deserializeAddress j

/-- The 2xx tail of cepla `request` (src/services/cepla.rs lines 86-103):
decode the body, and on failure build a BodyParsingError carrying the decode
error message and the body text (or the fallback placeholder). -/
def decodeBody (env : CeplaEnv) : Except Error Address :=
  match from_slice env with
  | .ok a => .ok a
  | .error m =>
      .error { kind := .bodyParsingError m (bodyText env.buf), source := .cepla }

/-- The cepla `request` function (src/services/cepla.rs lines 21-104): each
curl setup/transfer failure returns the corresponding error, then the response
status is classified by band (the `code as u16` cast is `% 65536`), and only a
2xx status proceeds to body decoding. -/
def request (env : CeplaEnv) : Except Error Address :=
  if env.urlOk then
    if env.appendOk then
      if env.headersOk then
        if env.writeFnOk then
          if env.performOk then
            match env.responseCode with
            | some code =>
                if 200 ≤ code ∧ code ≤ 299 then decodeBody env
                else if 400 ≤ code ∧ code ≤ 499 then
                  .error { kind := .clientError (code % 65536), source := .cepla }
                else if 500 ≤ code ∧ code ≤ 599 then
                  .error { kind := .serverError (code % 65536), source := .cepla }
                else
                  .error { kind := .unknownServerError (code % 65536), source := .cepla }
            | none => .error { kind := .unexpectedLibraryError, source := .cepla }
          else .error { kind := .missingBodyError, source := .cepla }
        else .error { kind := .missingBodyError, source := .cepla }
      else .error { kind := .unexpectedLibraryError, source := .cepla }
    else .error { kind := .unexpectedLibraryError, source := .cepla }
  else .error { kind := .unexpectedLibraryError, source := .cepla }

/-- The curl setup and transfer steps all succeeded, so `request` reaches the
status classification. -/
def setupOk (env : CeplaEnv) : Prop :=
  env.urlOk = true ∧ env.appendOk = true ∧ env.headersOk = true ∧
    env.writeFnOk = true ∧ env.performOk = true

/-- C1: the claim says that when every provider fails, `get_address` returns the
composite all-providers-failed error embedding the three recorded failures.
Evaluating the model at all-failing scenarios refutes this: with the single
message the race winner enqueued, the second poll finds the channel empty and
`get_address` returns a bare `UnexpectedLibraryError`; and when two failure
messages are read back-to-back, the composite construction indexes
`error_list[2]` out of bounds and panics (`none`). No composite error is ever
returned. -/
theorem C1_all_fail_not_composite :
    get_address_chan [.error ⟨.missingBodyError, .cepla⟩] =
      some (.error unexpectedErr) ∧
    get_address_chan [.error ⟨.missingBodyError, .cepla⟩,
      .error ⟨.serverError 500, .viacep⟩, .error ⟨.clientError 400, .correios⟩] =
      none :=
  ⟨rfl, rfl⟩

/-- C2: for every input code and every combination of provider outcomes,
`get_address` terminates with a normal `Result` value and never raises an
unrecoverable fault. On every reachable channel state — exactly the race
winner's single message, since `select!` drops the losing futures before they
can send — the first poll reads that message (returning a success directly or
recording the failure) and the second poll takes the `Err(_)` arm's normal
`return Err(UnexpectedLibraryError)`; the composite-error construction with
its `error_list[2]` indexing, and the `default => unreachable!()` arm, are
never reached, so no panic (`none`) can occur. -/
theorem C2_always_normal_result (outcomes : Fin 3 → Msg) (winner : Fin 3) :
    ∃ r : Msg, get_address outcomes winner = some r := by
  cases h : outcomes winner with
  | ok a =>
      exact ⟨.ok a, by show get_address_chan [outcomes winner] = _; rw [h]; rfl⟩
  | error e =>
      exact ⟨.error unexpectedErr, by show get_address_chan [outcomes winner] = _; rw [h]; rfl⟩

/-- C3: the claim says any success in the channel's message sequence is
returned in any arrival order, in particular two failures plus one success must
yield the success. Refuted when the success arrives third: the loop reads only
the first two messages, both failures, and then panics (`none`) in the
composite construction instead of returning the success. -/
theorem C3_success_third_lost :
    get_address_chan [.error ⟨.serverError 503, .viacep⟩,
      .error ⟨.unexpectedLibraryError, .correios⟩,
      .ok ⟨"70150903", "DF", "Brasília", "Zona Cívico-Administrativa", "SPP", ""⟩] =
      none :=
  rfl

/-- C4 counterexample: the claim says up to N = 3 messages are read so that
every provider's outcome can be observed when no success occurs. Refuted: with
three distinct failures queued, the third is never read and no composite error
embedding all three is returned — the construction panics (`none`) after
collecting only two failures. -/
theorem C4_third_failure_unobserved :
    get_address_chan [.error ⟨.unexpectedLibraryError, .viacep⟩,
      .error ⟨.serverError 502, .cepla⟩, .error ⟨.clientError 400, .correios⟩] =
      none :=
  rfl

/-- C4 amended: the aggregation loop performs exactly `N-1 = 2` channel reads
before the composite-error construction, and since the race step consumes no
message from the channel, `get_address` reads at most the first two queued
messages — its result never depends on any message beyond the second. -/
theorem C4_reads_at_most_two :
    ∀ msgs : List Msg, get_address_chan msgs = get_address_chan (msgs.take 2) := by
  intro msgs
  match msgs with
  | [] => rfl
  | [_] => rfl
  | _ :: _ :: _ => rfl

/-- C5 counterexample: the claim says that a poll finding no message pending is
recorded as an internal error for that slot, with reading continuing rather
than the whole lookup failing. Refuted: when the first poll finds no message
pending (`try_next` returns `Err(_)`), `get_address` returns
`Err(UnexpectedLibraryError)` immediately and a success available at the next
poll is never read. -/
theorem C5_pending_returns_immediately :
    get_address_polls .pending
      (.message (.ok ⟨"70150903", "DF", "Brasília", "Zona Cívico-Administrativa", "SPP", ""⟩)) =
      some (.error unexpectedErr) :=
  rfl

/-- C5 amended: a poll that finds no message pending (`try_next` returning
`Err(_)`) makes `get_address` return `Err(UnexpectedLibraryError)` for the
whole lookup at once, whichever iteration it happens on; it is only a poll
reporting the channel terminated (`Ok(None)`) that records an internal error
for that slot and continues reading, so that a success read afterwards is
still returned. -/
theorem C5_pending_aborts_terminated_continues :
    (∀ p, get_address_polls .pending p = some (.error unexpectedErr)) ∧
    (∀ e, get_address_polls (.message (.error e)) .pending =
      some (.error unexpectedErr)) ∧
    (∀ a, get_address_polls .terminated (.message (.ok a)) = some (.ok a)) ∧
    (∀ ps errs, tryLoop (.terminated :: ps) errs = tryLoop ps (errs ++ [unexpectedErr])) :=
  ⟨fun _ => rfl, fun _ => rfl, fun _ => rfl, fun _ _ => rfl⟩

/-- C6: the cepla adapter classifies every response status exhaustively by
band: any 4xx status returns a client error carrying the code, any 5xx status
a server error carrying the code, any status outside the 2xx/4xx/5xx bands an
unknown-status error carrying the code, and only a 2xx status proceeds to body
decoding. -/
theorem C6_status_classification (env : CeplaEnv) (code : Nat)
    (hs : setupOk env) (hc : env.responseCode = some code) (hlt : code < 65536) :
    (200 ≤ code ∧ code ≤ 299 → request env = decodeBody env) ∧
    (400 ≤ code ∧ code ≤ 499 →
      request env = .error ⟨.clientError code, .cepla⟩) ∧
    (500 ≤ code ∧ code ≤ 599 →
      request env = .error ⟨.serverError code, .cepla⟩) ∧
    (¬(200 ≤ code ∧ code ≤ 299) → ¬(400 ≤ code ∧ code ≤ 499) →
      ¬(500 ≤ code ∧ code ≤ 599) →
      request env = .error ⟨.unknownServerError code, .cepla⟩) := by
  obtain ⟨h1, h2, h3, h4, h5⟩ := hs
  have hmod : code % 65536 = code := Nat.mod_eq_of_lt hlt
  refine ⟨fun h => ?_, fun h => ?_, fun h => ?_, fun ha hb hcc => ?_⟩ <;>
    simp only [request, h1, h2, h3, h4, h5, hc, if_true]
  · rw [if_pos h]
  · rw [if_neg (by omega), if_pos h, hmod]
  · rw [if_neg (by omega), if_neg (by omega), if_pos h, hmod]
  · rw [if_neg ha, if_neg hb, if_neg hcc, hmod]

/-- C6 witness: a 404 response from a fully successful transfer is classified
as a client error carrying code 404. -/
theorem C6_status_classification_witness :
    request ⟨true, true, true, true, true, some 404, [], .ok .null⟩ =
      .error ⟨.clientError 404, .cepla⟩ :=
  (C6_status_classification ⟨true, true, true, true, true, some 404, [], .ok .null⟩
    404 ⟨rfl, rfl, rfl, rfl, rfl⟩ rfl (by decide)).2.1 ⟨by decide, by decide⟩

/-- C7: when a 2xx response body fails to decode into the `Address` structure,
the cepla adapter returns a body-parsing error carrying the decode error
message together with the body text, and the fallback placeholder replaces the
body exactly on the branch where the bytes are not valid UTF-8. -/
theorem C7_body_parsing_error (env : CeplaEnv) (code : Nat) (m s : String)
    (hs : setupOk env) (hc : env.responseCode = some code)
    (h2 : 200 ≤ code ∧ code ≤ 299) (hd : from_slice env = .error m) :
    (utf8Decode env.buf = some s →
      request env = .error ⟨.bodyParsingError m s, .cepla⟩) ∧
    (utf8Decode env.buf = none →
      request env = .error ⟨.bodyParsingError m fallbackBody, .cepla⟩) := by
  obtain ⟨h1, ha, hh, hw, hp⟩ := hs
  have hreq : request env = decodeBody env := by
    simp only [request, h1, ha, hh, hw, hp, hc, if_true]
    rw [if_pos h2]
  have hdec : ∀ b, bodyText env.buf = b →
      request env = .error ⟨.bodyParsingError m b, .cepla⟩ := by
    intro b hb
    rw [hreq]
    simp only [decodeBody, hd, hb]
  refine ⟨fun hu => hdec _ ?_, fun hu => hdec _ ?_⟩ <;> simp [bodyText, hu]

/-- C7 witness: a 2xx response whose body is the single invalid byte 0xFF and
whose parse fails with message "syntax error" yields a body-parsing error with
that message and the fallback placeholder body. -/
theorem C7_body_parsing_error_witness :
    request ⟨true, true, true, true, true, some 200, [255], .error "syntax error"⟩ =
      .error ⟨.bodyParsingError "syntax error" fallbackBody, .cepla⟩ :=
  (C7_body_parsing_error ⟨true, true, true, true, true, some 200, [255], .error "syntax error"⟩
    200 "syntax error" "" ⟨rfl, rfl, rfl, rfl, rfl⟩ rfl (by decide) rfl).2 rfl

/-- C8: every error returned by the cepla adapter's `request` carries the
`Cepla` source tag and is never of the composite kind, on every input and
every failure path; and the composite construction of the aggregator, whenever
it produces an error at all, produces one with the library-internal source tag
and the composite kind. -/
theorem C8_source_tags :
    (∀ env e, request env = .error e →
      e.source = .cepla ∧ e.kind.isComposite = false) ∧
    (∀ errs e, compositeOf errs = some (.error e) →
      e.source = .lagoinhaLib ∧ e.kind.isComposite = true) := by
  constructor
  · intro env e h
    unfold request at h
    repeat' split at h
    all_goals try (unfold decodeBody at h; split at h)
    all_goals first
      | (cases h; exact ⟨rfl, rfl⟩)
      | simp at h
  · intro errs e h
    unfold compositeOf at h
    split at h
    · cases h; exact ⟨rfl, rfl⟩
    · simp at h

/-- C8 witness: a failed URL setup yields an `UnexpectedLibraryError` tagged
`Cepla` and non-composite, and the composite construction applied to three
recorded internal failures yields a composite error tagged with the
library-internal source. -/
theorem C8_source_tags_witness :
    ((⟨Kind.unexpectedLibraryError, Source.cepla⟩ : Error).source = .cepla ∧
      (⟨Kind.unexpectedLibraryError, Source.cepla⟩ : Error).kind.isComposite = false) ∧
    ((⟨Kind.allServicesRetunedErrors (fmtError unexpectedErr) (fmtError unexpectedErr)
        (fmtError unexpectedErr), Source.lagoinhaLib⟩ : Error).source = .lagoinhaLib ∧
      (⟨Kind.allServicesRetunedErrors (fmtError unexpectedErr) (fmtError unexpectedErr)
        (fmtError unexpectedErr), Source.lagoinhaLib⟩ : Error).kind.isComposite = true) :=
  ⟨C8_source_tags.1 ⟨false, true, true, true, true, none, [], .ok .null⟩
      ⟨Kind.unexpectedLibraryError, Source.cepla⟩ rfl,
    C8_source_tags.2 [unexpectedErr, unexpectedErr, unexpectedErr]
      ⟨Kind.allServicesRetunedErrors (fmtError unexpectedErr) (fmtError unexpectedErr)
        (fmtError unexpectedErr), Source.lagoinhaLib⟩ rfl⟩

/-- C10: the derived deserialization of the cepla `Address` defaults every
missing JSON field to the empty string: a 2xx response whose body parses as a
JSON object in which every present known field is a unique string yields `Ok`,
each field holding the present string or the empty-string default, so an
object lacking some or all expected fields is not a body-parsing error. -/
theorem C10_missing_fields_default (env : CeplaEnv) (code : Nat)
    (l : List (String × Json))
    (hs : setupOk env) (hc : env.responseCode = some code)
    (h2 : 200 ≤ code ∧ code ≤ 299) (hp : env.parseResult = .ok (.obj l))
    (hdup : ∀ k, countKey k l ≤ 1)
    (hstr : ∀ k j, findVal k l = some j → ∃ s, j = .str s) :
    request env = .ok ⟨fieldStr "cep" l, fieldStr "uf" l, fieldStr "cidade" l,
      fieldStr "bairro" l, fieldStr "logradouro" l, fieldStr "aux" l⟩ ∧
    (∀ k, findVal k l = none → fieldStr k l = "") := by
  obtain ⟨h1, ha, hh, hw, hpf⟩ := hs
  have hfv : ∀ k, fieldValue k l = .ok (fieldStr k l) := by
    intro k
    unfold fieldValue fieldStr
    rw [if_neg (by have := hdup k; omega)]
    cases hfind : findVal k l with
    | none => rfl
    | some j =>
        obtain ⟨s, rfl⟩ := hstr k j hfind
        rfl
  have hreq : request env = decodeBody env := by
    simp only [request, h1, ha, hh, hw, hpf, hc, if_true]
    rw [if_pos h2]
  refine ⟨?_, fun k hk => by simp [fieldStr, hk]⟩
  rw [hreq]
  simp only [decodeBody, from_slice, hp, deserializeAddress, hfv]
  rfl

/-- C10 witness: a 2xx response whose body parses as the empty JSON object
yields `Ok` with all six fields defaulted to the empty string. -/
theorem C10_missing_fields_default_witness :
    request ⟨true, true, true, true, true, some 200, [], .ok (.obj [])⟩ =
      .ok ⟨"", "", "", "", "", ""⟩ :=
  (C10_missing_fields_default ⟨true, true, true, true, true, some 200, [], .ok (.obj [])⟩
    200 [] ⟨rfl, rfl, rfl, rfl, rfl⟩ rfl (by decide) rfl
    (fun k => by simp [countKey])
    (fun k j h => by simp [findVal] at h)).1

end Lagoinha
